import Mathlib

/-!
# aws_ec2_transit_gateway_vpc_attachment

A shallow embedding of `aws/table_aws_ec2_transit_gateway_vpc_attachment.go`
(package `aws` of steampipe-plugin-aws) and the properties of its list, get and
derivation functions.

Conventions of the embedding

* A Go pointer `*T` is `Option T`; `none` is the nil pointer. A nil slice is
  `none`, a non-nil slice is `some xs`; ranging over either visits the elements
  of `xs` (none for the nil slice).
* A Go function returning `(interface{}, error)` yields `Outcome.ret v err`, with
  `err = none` for the nil error. Dereferencing a nil pointer is a run-time
  panic; the function then returns nothing, which is `Outcome.panic`.
* Collaborators of the package that live in other files (`Ec2Service`,
  `getCommonColumns`, `matrixKeyRegion`) are fields of `Env`.
-/

namespace Aws

/-! ## Data model -/

/-- Go `error` value. `code` is the `awserr.Error` code; it is `none` for an
error that is not a provider error. -/
structure Err where
  code : Option String
  message : String
deriving DecidableEq, Repr

/-- Result of running a Go function of type `(T, error)`. -/
inductive Outcome (α : Type) where
  | ret (value : α) (err : Option Err)
  | panic
deriving DecidableEq, Repr

/-- SDK type `ec2.Tag`: both fields are `*string`. -/
structure Tag where
  Key : Option String
  Value : Option String
deriving DecidableEq, Repr

/-- SDK type `ec2.TransitGatewayAttachment`, restricted to the fields the file
reads by name: `TransitGatewayAttachmentId *string` and `Tags []*ec2.Tag`. -/
structure TransitGatewayAttachment where
  TransitGatewayAttachmentId : Option String
  Tags : Option (List (Option Tag))
deriving DecidableEq, Repr

/-- An item as the provider returns it and as it is streamed:
`*ec2.TransitGatewayAttachment`. -/
abbrev Item := Option TransitGatewayAttachment

/-! ## Transform functions -/

/-- The body of `for _, i := range data.Tags` in
`getEc2TransitGatewayAttachmentTitle`, from the current value of `title`:
`if *i.Key == "Name" { title = i.Value }`, then `return title, nil`. -/
def titleLoop : List (Option Tag) → Option String → Outcome (Option String)
  | [], title => .ret title none
  | none :: _, _ => .panic
  | some i :: rest, title =>
    match i.Key with
    | none => .panic
    | some k => if k = "Name" then titleLoop rest i.Value else titleLoop rest title

/-- Go `getEc2TransitGatewayAttachmentTitle`, applied to the hydrated item. -/
def getEc2TransitGatewayAttachmentTitle (data : TransitGatewayAttachment) :
    Outcome (Option String) :=
  let title := data.TransitGatewayAttachmentId
  match data.Tags with
  | none => .ret title none
  | some tags => titleLoop tags title

/-- Go `map[string]string`: the value bound to each key, if any. -/
abbrev TurbotTags := String → Option String

/-- The assignment `m[k] = v` on a Go map. -/
def TurbotTags.set (m : TurbotTags) (k v : String) : TurbotTags :=
  fun x => if x = k then some v else m x

/-- Modelled from the spec: the pass of `ec2TagsToMap` over the raw tag list,
from the map built so far. Each entry is entered under its key with its value,
a later entry overwriting an earlier one with the same key ("last-seen-wins"). -/
def ec2TagsToMapLoop : List (Option Tag) → TurbotTags → Outcome TurbotTags
  | [], m => .ret m none
  | some ⟨some k, some v⟩ :: rest, m => ec2TagsToMapLoop rest (m.set k v)
  | _ :: _, _ => .panic

/-- Modelled from the spec: `ec2TagsToMap`, the tag-list-to-map converter shared
across the plugin, is not in this file. The spec: "convert the raw ordered tag
list (key/value pairs) into a key→value mapping", "last-seen-wins". The entries
are entered in list order into a map that starts empty; the map is string to
string, so an entry is entered through its key and its value, and an entry that
has none is a nil dereference as everywhere in this development. -/
def ec2TagsToMap (tags : Option (List (Option Tag))) : Outcome TurbotTags :=
  ec2TagsToMapLoop (tags.getD []) (fun _ => none)

/-- Go `transitGatewayAttachmentRawTagsToTurbotTags`, applied to the hydrated
item. -/
def transitGatewayAttachmentRawTagsToTurbotTags (data : TransitGatewayAttachment) :
    Outcome TurbotTags :=
  ec2TagsToMap data.Tags

/-! ## Provider client and query state -/

/-- SDK type `ec2.DescribeTransitGatewayAttachmentsInput`, restricted to the
field the file sets. -/
structure DescribeTransitGatewayAttachmentsInput where
  TransitGatewayAttachmentIds : Option (List (Option String))
deriving DecidableEq, Repr

/-- SDK type `ec2.DescribeTransitGatewayAttachmentsOutput`, restricted to the
field the file reads. -/
structure DescribeTransitGatewayAttachmentsOutput where
  TransitGatewayAttachments : Option (List Item)
deriving DecidableEq, Repr

/-- A call made on the provider client. -/
inductive ApiCall where
  | describe (input : DescribeTransitGatewayAttachmentsInput)
  | describePages (input : DescribeTransitGatewayAttachmentsInput)
deriving DecidableEq, Repr

/-- The mutable part of a query: the items handed to the result sink so far, in
order, and the calls made on the provider client so far, in order. -/
structure RunState where
  streamed : List Item
  calls : List ApiCall
deriving DecidableEq, Repr

/-- The `*ec2.EC2` client of one region, as the provider answers it:
the `(output, error)` of `DescribeTransitGatewayAttachments`, and for the
paginated call the pages the provider delivers, each with the last-page signal
the SDK passes along with it, followed by the error that ends the sequence, if
any. -/
structure Ec2Client where
  DescribeTransitGatewayAttachments :
    DescribeTransitGatewayAttachmentsInput → Except Err DescribeTransitGatewayAttachmentsOutput
  pages : DescribeTransitGatewayAttachmentsInput →
    List (DescribeTransitGatewayAttachmentsOutput × Bool)
  pagesErr : DescribeTransitGatewayAttachmentsInput → Option Err

/-- The page loop of the SDK method `DescribeTransitGatewayAttachmentsPages`:
`fn` is called on every delivered page with its last-page signal, the loop
breaks when `fn` returns false, and the call returns the error of the request
(nil after a break or after the last page). -/
def pagesLoop (fn : RunState → DescribeTransitGatewayAttachmentsOutput → Bool → RunState × Bool) :
    List (DescribeTransitGatewayAttachmentsOutput × Bool) → Option Err → RunState →
    RunState × Option Err
  | [], err, s => (s, err)
  | (page, isLast) :: rest, err, s =>
    match fn s page isLast with
    | (s', true) => pagesLoop fn rest err s'
    | (s', false) => (s', none)

/-- SDK method `svc.DescribeTransitGatewayAttachmentsPages(input, fn)`. -/
def Ec2Client.DescribeTransitGatewayAttachmentsPages (svc : Ec2Client)
    (input : DescribeTransitGatewayAttachmentsInput)
    (fn : RunState → DescribeTransitGatewayAttachmentsOutput → Bool → RunState × Bool)
    (s : RunState) : RunState × Option Err :=
  pagesLoop fn (svc.pages input) (svc.pagesErr input)
    { s with calls := s.calls ++ [ApiCall.describePages input] }

/-- The read-only part of `*plugin.QueryData`: the key column quals. -/
structure QueryData where
  KeyColumnQuals : String → Option String

/-- SDK method `d.KeyColumnQualString(key)`; also `GetStringValue()` on the qual
of a key: the string value, empty when there is none. -/
def QueryData.KeyColumnQualString (d : QueryData) (key : String) : String :=
  (d.KeyColumnQuals key).getD ""

/-- SDK method `d.StreamListItem(ctx, item)`: hands one item to the sink. -/
def StreamListItem (s : RunState) (item : Item) : RunState :=
  { s with streamed := s.streamed ++ [item] }

/-- Package type `awsCommonColumnData`. -/
structure awsCommonColumnData where
  Partition : String
  Region : String
  AccountId : String
deriving DecidableEq, Repr

/-- SDK type `plugin.HydrateData`, restricted to `Item`. -/
structure HydrateData where
  Item : Item
deriving DecidableEq, Repr

/-- The package-level collaborators of this file that are defined elsewhere in
package `aws`: the constant `matrixKeyRegion`, the client factory `Ec2Service`
and the cached lookup `getCommonColumns`. -/
structure Env where
  matrixKeyRegion : String
  Ec2Service : QueryData → String → Except Err Ec2Client
  getCommonColumns : QueryData → HydrateData → Except Err awsCommonColumnData

/-! ## List function -/

/-- The page callback of `listEc2TransitGatewayVpcAttachment`: streams every
attachment of the page, then `return !isLast`. -/
def listPageCallback (s : RunState) (page : DescribeTransitGatewayAttachmentsOutput)
    (isLast : Bool) : RunState × Bool :=
  ((page.TransitGatewayAttachments.getD []).foldl StreamListItem s, !isLast)

/-- Go `listEc2TransitGatewayVpcAttachment`. -/
def listEc2TransitGatewayVpcAttachment (env : Env) (d : QueryData) (s : RunState) :
    RunState × Outcome (Option Item) :=
  let region := d.KeyColumnQualString env.matrixKeyRegion
  match env.Ec2Service d region with
  | .error err => (s, .ret none (some err))
  | .ok svc =>
    match svc.DescribeTransitGatewayAttachmentsPages ⟨none⟩ listPageCallback s with
    | (s', err) => (s', .ret none err)

/-! ## Hydrate functions -/

/-- Go `getEc2TransitGatewayVpcAttachment`. -/
def getEc2TransitGatewayVpcAttachment (env : Env) (d : QueryData) (s : RunState) :
    RunState × Outcome (Option Item) :=
  let region := d.KeyColumnQualString env.matrixKeyRegion
  let transitGatewayAttachmentID := d.KeyColumnQualString "transit_gateway_attachment_id"
  match env.Ec2Service d region with
  | .error err => (s, .ret none (some err))
  | .ok svc =>
    let params : DescribeTransitGatewayAttachmentsInput := ⟨some [some transitGatewayAttachmentID]⟩
    let s' := { s with calls := s.calls ++ [ApiCall.describe params] }
    match svc.DescribeTransitGatewayAttachments params with
    | .error err => (s', .ret none (some err))
    | .ok op =>
      match op.TransitGatewayAttachments with
      | none => (s', .ret none none)
      | some [] => (s', .ret none none)
      | some (first :: _) => (s', .ret (some first) none)

/-- Go `getAwsEc2TransitGatewayVpcAttachmentAkas`. -/
def getAwsEc2TransitGatewayVpcAttachmentAkas (env : Env) (d : QueryData) (h : HydrateData) :
    Outcome (Option (List String)) :=
  let region := d.KeyColumnQualString env.matrixKeyRegion
  let transitGatewayAttachment := h.Item
  match env.getCommonColumns d h with
  | .error err => .ret none (some err)
  | .ok commonColumnData =>
    match transitGatewayAttachment with
    | none => .panic
    | some attachment =>
      match attachment.TransitGatewayAttachmentId with
      | none => .panic
      | some id =>
        .ret (some ["arn:" ++ commonColumnData.Partition ++ ":ec2:" ++ region ++ ":"
          ++ commonColumnData.AccountId ++ ":transit-gateway-attachment/" ++ id]) none

/-! ## Table definition -/

/-- Modelled from the spec: `isNotFoundError` is defined elsewhere in package
`aws`. The spec: "an "is this error a not-found" classifier parameterized by a
set of known error codes"; NotFound-class errors are "matched by an explicit
allow-list of error codes". An error without a provider code matches nothing. -/
def isNotFoundError (notFoundErrors : List String) (err : Err) : Bool :=
  match err.code with
  | some code => notFoundErrors.contains code
  | none => false

/-- SDK type `plugin.GetConfig`. -/
structure GetConfig where
  KeyColumns : List String
  ShouldIgnoreError : Err → Bool
  Hydrate : Env → QueryData → RunState → RunState × Outcome (Option Item)

/-- SDK type `plugin.ListConfig`. -/
structure ListConfig where
  Hydrate : Env → QueryData → RunState → RunState × Outcome (Option Item)

/-- SDK type `plugin.Table`, restricted to the name and the two retrieval
configurations. -/
structure Table where
  Name : String
  Get : GetConfig
  List : ListConfig

/-- Go `tableAwsEc2TransitGatewayVpcAttachment`. -/
def tableAwsEc2TransitGatewayVpcAttachment : Table where
  Name := "aws_ec2_transit_gateway_vpc_attachment"
  Get :=
    { KeyColumns := ["transit_gateway_attachment_id"]
      ShouldIgnoreError := isNotFoundError
        ["InvalidTransitGatewayAttachmentID.NotFound",
         "InvalidTransitGatewayAttachmentID.Unavailable",
         "InvalidTransitGatewayAttachmentID.Malformed"]
      Hydrate := getEc2TransitGatewayVpcAttachment }
  List := { Hydrate := listEc2TransitGatewayVpcAttachment }

/-- Modelled from the spec: the Get boundary of the plugin framework, which
runs the hydrate of a `GetConfig`. The spec: NotFound-class provider errors are
"suppressed into an empty result at the Get boundary", "the calling framework is
expected to suppress row output rather than fail the query", "All other errors
propagate". -/
def runGet (cfg : GetConfig) (env : Env) (d : QueryData) (s : RunState) :
    RunState × Outcome (Option Item) :=
  match cfg.Hydrate env d s with
  | (s', .ret item (some err)) =>
    if cfg.ShouldIgnoreError err then (s', .ret none none) else (s', .ret item (some err))
  | r => r

/-! ## Vocabulary of the statements -/

/-- The tag list of an attachment as a list of entries; empty for the nil
slice. -/
def tagList (data : TransitGatewayAttachment) : List (Option Tag) :=
  data.Tags.getD []

/-- The key of a tag-list entry, when the entry and its key are not nil. -/
def tagKey (e : Option Tag) : Option String :=
  e.bind (fun t => t.Key)

/-- The value pointer of a tag-list entry (nil for a nil entry). -/
def tagValue (e : Option Tag) : Option String :=
  e.bind (fun t => t.Value)

/-- The entry is a tag whose key is exactly "Name". -/
def isNameTag (e : Option Tag) : Bool :=
  decide (tagKey e = some "Name")

/-- Every entry of the list is a non-nil tag with a non-nil key. -/
def keyedTags (tags : List (Option Tag)) : Bool :=
  tags.all (fun e => (tagKey e).isSome)

/-- Every entry of the list is a non-nil tag with a non-nil key and a non-nil
value. -/
def pairedTags (tags : List (Option Tag)) : Bool :=
  tags.all (fun e => (tagKey e).isSome && (tagValue e).isSome)

/-- One step of the title scan on an entry that has a key: the title is
overwritten by the value of a "Name" tag and kept otherwise. -/
def overwriteTitle (title : Option String) (e : Option Tag) : Option String :=
  if isNameTag e then tagValue e else title

/-- The raw tag-list entry of a (key, value) pair. -/
def rawTag (kv : String × String) : Option Tag :=
  some ⟨some kv.1, some kv.2⟩

/-- The attachments of a page, in page order; none for the nil slice. -/
def pageItems (page : DescribeTransitGatewayAttachmentsOutput) : List Item :=
  page.TransitGatewayAttachments.getD []

/-- The attachments of a sequence of delivered pages, in page order and
within-page order. -/
def allPageItems (pages : List (DescribeTransitGatewayAttachmentsOutput × Bool)) : List Item :=
  (pages.map (fun p => pageItems p.1)).flatten

/-- Only the final page of the sequence carries the last-page signal. -/
def lastSignalOnlyAtEnd : List (DescribeTransitGatewayAttachmentsOutput × Bool) → Bool
  | [] => true
  | [(_, isLast)] => isLast
  | (_, isLast) :: rest => !isLast && lastSignalOnlyAtEnd rest

/-! ## Concrete inputs -/

/-- An attachment with a "Name" tag between two other tags. -/
def attachmentNamed : TransitGatewayAttachment :=
  { TransitGatewayAttachmentId := some "tgw-attach-0a1b"
    Tags := some [some ⟨some "env", some "prod"⟩, some ⟨some "Name", some "edge-vpc"⟩,
      some ⟨some "team", none⟩] }

/-- An attachment whose only tag has a nil key. -/
def attachmentNilKey : TransitGatewayAttachment :=
  { TransitGatewayAttachmentId := some "tgw-attach-0a1b"
    Tags := some [some ⟨none, some "prod"⟩] }

/-- An attachment with two "Name" tags of different values. -/
def attachmentTwoNames : TransitGatewayAttachment :=
  { TransitGatewayAttachmentId := some "tgw-attach-0a1b"
    Tags := some [some ⟨some "Name", some "first"⟩, some ⟨some "Name", some "second"⟩] }

/-- An attachment with three "Name" tags and other tags around them. -/
def attachmentThreeNames : TransitGatewayAttachment :=
  { TransitGatewayAttachmentId := some "tgw-attach-0c2d"
    Tags := some [some ⟨some "Name", some "a"⟩, some ⟨some "env", some "dev"⟩,
      some ⟨some "Name", some "b"⟩, some ⟨some "Name", some "c"⟩, some ⟨some "name", some "d"⟩] }

/-- An attachment with two "Name" tags followed by a nil entry. -/
def attachmentTwoNamesNilEntry : TransitGatewayAttachment :=
  { TransitGatewayAttachmentId := some "tgw-attach-0a1b"
    Tags := some [some ⟨some "Name", some "first"⟩, some ⟨some "Name", some "second"⟩, none] }

/-- An attachment with two "Name" tags separated by another tag. -/
def attachmentNamesApart : TransitGatewayAttachment :=
  { TransitGatewayAttachmentId := none
    Tags := some [some ⟨some "Name", some "old"⟩, some ⟨some "owner", some "net"⟩,
      some ⟨some "Name", none⟩] }

/-- A provider error with the given code. -/
def providerError (code : String) : Err :=
  { code := some code, message := "the provider rejected the request" }

/-- A client whose describe call answers with the given result. -/
def clientAnswering
    (r : Except Err DescribeTransitGatewayAttachmentsOutput) : Ec2Client :=
  { DescribeTransitGatewayAttachments := fun _ => r
    pages := fun _ => []
    pagesErr := fun _ => none }

/-- An environment whose client factory answers with the given result. -/
def envWith (r : Except Err Ec2Client) : Env :=
  { matrixKeyRegion := "region"
    Ec2Service := fun _ _ => r
    getCommonColumns := fun _ _ =>
      .ok { Partition := "aws", Region := "us-east-1", AccountId := "123456789012" } }

/-- A query in region us-east-1 for one attachment id. -/
def queryOne : QueryData :=
  { KeyColumnQuals := fun key =>
      if key = "region" then some "us-east-1"
      else if key = "transit_gateway_attachment_id" then some "tgw-attach-0a1b"
      else none }

/-- The state of a query that has streamed nothing and called nothing. -/
def freshState : RunState :=
  { streamed := [], calls := [] }

/-- An item with the given attachment id and no tags. -/
def itemWithId (id : String) : Item :=
  some { TransitGatewayAttachmentId := some id, Tags := none }

/-- A client whose paginated call delivers the given pages and then ends with
the given error, if any. -/
def clientPaging (pages : List (DescribeTransitGatewayAttachmentsOutput × Bool))
    (err : Option Err) : Ec2Client :=
  { DescribeTransitGatewayAttachments := fun _ => .ok ⟨none⟩
    pages := fun _ => pages
    pagesErr := fun _ => err }

/-- Three pages of 2, 2 and 1 items, the third one signalled as last. -/
def threePages : List (DescribeTransitGatewayAttachmentsOutput × Bool) :=
  [(⟨some [itemWithId "a1", itemWithId "a2"]⟩, false),
   (⟨some [itemWithId "b1", itemWithId "b2"]⟩, false),
   (⟨some [itemWithId "c1"]⟩, true)]

/-- Two pages of 2 and 1 items, neither signalled as last. -/
def twoPagesThenMore : List (DescribeTransitGatewayAttachmentsOutput × Bool) :=
  [(⟨some [itemWithId "a1", itemWithId "a2"]⟩, false),
   (⟨some [itemWithId "b1"]⟩, false)]

/-- A hydrate call on the attachment tgw-attach-0a1b without tags. -/
def hydrateOne : HydrateData :=
  { Item := itemWithId "tgw-attach-0a1b" }

/-- An attachment whose tag list is the list of the pairs env=prod and
Name=edge-vpc. -/
def attachmentEnvName : TransitGatewayAttachment :=
  { TransitGatewayAttachmentId := some "tgw-attach-0a1b"
    Tags := some [some ⟨some "env", some "prod"⟩, some ⟨some "Name", some "edge-vpc"⟩] }

/-- An attachment with the distinct keys env and team, the tag team having a
nil value. -/
def attachmentNilValue : TransitGatewayAttachment :=
  { TransitGatewayAttachmentId := some "tgw-attach-0e3f"
    Tags := some [some ⟨some "env", some "prod"⟩, some ⟨some "team", none⟩] }

/-! ## Lemmas on the title scan -/

theorem titleLoop_keyed (tags : List (Option Tag)) :
    ∀ title : Option String, keyedTags tags = true →
      titleLoop tags title = Outcome.ret (tags.foldl overwriteTitle title) none := by
  induction tags with
  | nil => intro title _; rfl
  | cons e rest ih =>
    intro title hk
    have hk' : (tagKey e).isSome = true ∧ keyedTags rest = true := by
      simpa [keyedTags] using hk
    obtain ⟨he, hrest⟩ := hk'
    cases e with
    | none => simp [tagKey] at he
    | some i =>
      cases hkey : i.Key with
      | none => simp [tagKey, hkey] at he
      | some k =>
        by_cases hn : k = "Name"
        · simp [titleLoop, hkey, hn, ih _ hrest, overwriteTitle, isNameTag, tagKey, tagValue]
        · simp [titleLoop, hkey, hn, ih _ hrest, overwriteTitle, isNameTag, tagKey]

theorem foldl_overwriteTitle_of_no_name (tags : List (Option Tag)) :
    ∀ title : Option String, (∀ e ∈ tags, isNameTag e = false) →
      tags.foldl overwriteTitle title = title := by
  induction tags with
  | nil => intro title _; rfl
  | cons e rest ih =>
    intro title h
    have he : isNameTag e = false := h e (List.mem_cons_self _ _)
    have hrest : ∀ x ∈ rest, isNameTag x = false := fun x hx => h x (List.mem_cons_of_mem _ hx)
    simp [List.foldl, overwriteTitle, he, ih _ hrest]

theorem foldl_overwriteTitle_last (pre post : List (Option Tag)) (e : Option Tag)
    (title : Option String) (he : isNameTag e = true)
    (hpost : ∀ x ∈ post, isNameTag x = false) :
    (pre ++ e :: post).foldl overwriteTitle title = tagValue e := by
  rw [List.foldl_append, List.foldl_cons, foldl_overwriteTitle_of_no_name post _ hpost]
  simp [overwriteTitle, he]

theorem foldr_overwriteTitle_find (r : List (Option Tag)) (title : Option String) :
    r.foldr (fun e t => overwriteTitle t e) title =
      match r.find? isNameTag with
      | some e => tagValue e
      | none => title := by
  induction r with
  | nil => rfl
  | cons e rest ih =>
    by_cases he : isNameTag e = true
    · simp [List.foldr, List.find?, he, overwriteTitle]
    · have he' : isNameTag e = false := by simpa using he
      simp only [List.foldr, List.find?, he']
      rw [ih]
      simp [overwriteTitle, he']

theorem foldl_overwriteTitle_find (tags : List (Option Tag)) (title : Option String) :
    tags.foldl overwriteTitle title =
      match tags.reverse.find? isNameTag with
      | some e => tagValue e
      | none => title := by
  rw [← foldr_overwriteTitle_find, List.foldr_reverse]

theorem title_of_keyed (data : TransitGatewayAttachment)
    (hk : keyedTags (tagList data) = true) :
    getEc2TransitGatewayAttachmentTitle data =
      Outcome.ret ((tagList data).foldl overwriteTitle data.TransitGatewayAttachmentId) none := by
  unfold getEc2TransitGatewayAttachmentTitle
  cases hT : data.Tags with
  | none => simp [tagList, hT]
  | some tags =>
    have hk' : keyedTags tags = true := by simpa [tagList, hT] using hk
    simp [tagList, hT, titleLoop_keyed tags _ hk']

theorem keyedTags_iff (tags : List (Option Tag)) :
    keyedTags tags = true ↔ ∀ e ∈ tags, ∃ (t : Tag) (k : String), e = some t ∧ t.Key = some k := by
  unfold keyedTags
  rw [List.all_eq_true]
  constructor
  · intro h e he
    have := h e he
    cases e with
    | none => simp [tagKey] at this
    | some t =>
      cases hkey : t.Key with
      | none => simp [tagKey, hkey] at this
      | some k => exact ⟨t, k, rfl, hkey⟩
  · intro h e he
    obtain ⟨t, k, rfl, hkey⟩ := h e he
    simp [tagKey, hkey]

theorem titleLoop_not_keyed (tags : List (Option Tag)) :
    ∀ title : Option String, keyedTags tags = false →
      titleLoop tags title = Outcome.panic := by
  induction tags with
  | nil => intro title h; simp [keyedTags] at h
  | cons e rest ih =>
    intro title h
    cases e with
    | none => rfl
    | some i =>
      cases hkey : i.Key with
      | none => simp [titleLoop, hkey]
      | some k =>
        have hrest : keyedTags rest = false := by
          simpa [keyedTags, tagKey, hkey] using h
        by_cases hn : k = "Name"
        · simp [titleLoop, hkey, hn, ih _ hrest]
        · simp [titleLoop, hkey, hn, ih _ hrest]

/-- The title transform returns exactly on the attachments whose tag entries
are all non-nil tags with non-nil keys; on every other attachment it panics. -/
theorem title_returns_iff_keyed (data : TransitGatewayAttachment) :
    (∃ title err, getEc2TransitGatewayAttachmentTitle data = Outcome.ret title err) ↔
      keyedTags (tagList data) = true := by
  constructor
  · rintro ⟨title, err, h⟩
    cases hk : keyedTags (tagList data) with
    | true => rfl
    | false =>
      exfalso
      unfold getEc2TransitGatewayAttachmentTitle at h
      cases hT : data.Tags with
      | none => simp [tagList, hT, keyedTags] at hk
      | some tags =>
        have hk' : keyedTags tags = false := by simpa [tagList, hT] using hk
        simp [hT, titleLoop_not_keyed tags _ hk'] at h
  · intro hk
    exact ⟨_, _, title_of_keyed data hk⟩

theorem isNameTag_iff (e : Option Tag) :
    isNameTag e = true ↔ ∃ t : Tag, e = some t ∧ t.Key = some "Name" := by
  cases e with
  | none => simp [isNameTag, tagKey]
  | some t => simp [isNameTag, tagKey]

/-! ## Title selection -/

/-- C1, as amended. For every attachment whose tag entries are all non-nil tags
with non-nil keys, the title transform returns with a nil error; if the tag list
contains a tag with key "Name", the title is the value of a tag of the list with
key "Name"; if the tag list is nil, empty or without a tag with key "Name", the
title is the attachment id. -/
theorem title_name_or_attachment_id (data : TransitGatewayAttachment)
    (hk : keyedTags (tagList data) = true) :
    ∃ title : Option String,
      getEc2TransitGatewayAttachmentTitle data = Outcome.ret title none ∧
      ((∃ t : Tag, some t ∈ tagList data ∧ t.Key = some "Name") →
        ∃ t : Tag, some t ∈ tagList data ∧ t.Key = some "Name" ∧ title = t.Value) ∧
      ((data.Tags = none ∨ data.Tags = some [] ∨
          ∀ t : Tag, some t ∈ tagList data → t.Key ≠ some "Name") →
        title = data.TransitGatewayAttachmentId) := by
  refine ⟨_, title_of_keyed data hk, ?_, ?_⟩
  · rintro ⟨t, ht, hname⟩
    rw [foldl_overwriteTitle_find]
    cases hf : (tagList data).reverse.find? isNameTag with
    | none =>
      have hnone := List.find?_eq_none.mp hf (some t) (List.mem_reverse.mpr ht)
      exact absurd ((isNameTag_iff _).mpr ⟨t, rfl, hname⟩) hnone
    | some e =>
      obtain ⟨t', rfl, hname'⟩ := (isNameTag_iff e).mp (List.find?_some hf)
      exact ⟨t', List.mem_reverse.mp (List.mem_of_find?_eq_some hf), hname', rfl⟩
  · intro h
    apply foldl_overwriteTitle_of_no_name
    intro e he
    rcases h with h | h | h
    · simp [tagList, h] at he
    · simp [tagList, h] at he
    · cases hn : isNameTag e with
      | false => rfl
      | true =>
        obtain ⟨t, rfl, hname⟩ := (isNameTag_iff e).mp hn
        exact absurd hname (h t he)

/-- Witness of C1 as amended: an attachment with tags env, Name and team gets
the value of its "Name" tag. -/
theorem title_name_or_attachment_id_witness :
    keyedTags (tagList attachmentNamed) = true ∧
    ∃ title : Option String,
      getEc2TransitGatewayAttachmentTitle attachmentNamed = Outcome.ret title none ∧
      ((∃ t : Tag, some t ∈ tagList attachmentNamed ∧ t.Key = some "Name") →
        ∃ t : Tag, some t ∈ tagList attachmentNamed ∧ t.Key = some "Name" ∧ title = t.Value) ∧
      ((attachmentNamed.Tags = none ∨ attachmentNamed.Tags = some [] ∨
          ∀ t : Tag, some t ∈ tagList attachmentNamed → t.Key ≠ some "Name") →
        title = attachmentNamed.TransitGatewayAttachmentId) :=
  ⟨by decide, title_name_or_attachment_id attachmentNamed (by decide)⟩

/-- Counterexample to C1 as stated: on an attachment whose single tag has a nil
key, a tag list without a tag with key "Name", the title transform dereferences
the nil key and does not return; in particular it does not return the
attachment id. -/
theorem title_nil_key_does_not_return :
    (∀ t : Tag, some t ∈ tagList attachmentNilKey → t.Key ≠ some "Name") ∧
    getEc2TransitGatewayAttachmentTitle attachmentNilKey = Outcome.panic ∧
    ¬ ∃ title err, getEc2TransitGatewayAttachmentTitle attachmentNilKey =
        Outcome.ret title err := by
  refine ⟨?_, rfl, ?_⟩
  · intro t ht
    simp [tagList, attachmentNilKey] at ht
    simp [ht]
  · rintro ⟨title, err, h⟩
    have hp : getEc2TransitGatewayAttachmentTitle attachmentNilKey = Outcome.panic := rfl
    rw [hp] at h
    cases h

/-- C2, as amended. For every attachment whose tag entries are all non-nil tags
with non-nil keys and whose tag list contains two or more tags with key "Name",
the title transform returns the value of the last such tag in list order: the
tag after which no tag with key "Name" follows. -/
theorem title_duplicate_names_last_match (data : TransitGatewayAttachment)
    (pre post : List (Option Tag)) (t : Tag)
    (hk : keyedTags (tagList data) = true)
    (hsplit : tagList data = pre ++ some t :: post)
    (hname : t.Key = some "Name")
    (_hpre : ∃ t' : Tag, some t' ∈ pre ∧ t'.Key = some "Name")
    (hpost : ∀ t' : Tag, some t' ∈ post → t'.Key ≠ some "Name") :
    getEc2TransitGatewayAttachmentTitle data = Outcome.ret t.Value none := by
  rw [title_of_keyed data hk, hsplit,
    foldl_overwriteTitle_last pre post (some t) _ ((isNameTag_iff _).mpr ⟨t, rfl, hname⟩)]
  · rfl
  · intro e he
    cases hn : isNameTag e with
    | false => rfl
    | true =>
      obtain ⟨t', rfl, hname'⟩ := (isNameTag_iff e).mp hn
      exact absurd hname' (hpost t' he)

/-- Witness of C2 as amended: of the three "Name" tags a, b, c the title is c. -/
theorem title_duplicate_names_last_match_witness :
    getEc2TransitGatewayAttachmentTitle attachmentThreeNames = Outcome.ret (some "c") none :=
  title_duplicate_names_last_match attachmentThreeNames
    [some ⟨some "Name", some "a"⟩, some ⟨some "env", some "dev"⟩, some ⟨some "Name", some "b"⟩]
    [some ⟨some "name", some "d"⟩] ⟨some "Name", some "c"⟩
    (by decide) rfl rfl ⟨⟨some "Name", some "a"⟩, by simp, rfl⟩
    (by intro t' ht'; simp at ht'; simp [ht'])

/-- Counterexample to C2 as stated: with the two tags Name=first, Name=second
the first tag with key "Name" has value "first", and the title returned is
"second", not "first". -/
theorem title_first_match_does_not_win :
    (tagList attachmentTwoNames).find? isNameTag = some (some ⟨some "Name", some "first"⟩) ∧
    getEc2TransitGatewayAttachmentTitle attachmentTwoNames = Outcome.ret (some "second") none ∧
    getEc2TransitGatewayAttachmentTitle attachmentTwoNames ≠ Outcome.ret (some "first") none := by
  decide

/-- C10, as amended. The title transform scans the whole tag list in list order
and overwrites the title on each tag whose key is "Name": for every attachment
whose tag entries are all non-nil tags with non-nil keys and whose tag list
contains two or more tags with key "Name", the title returned is the value of
the last such tag in list order. -/
theorem title_scan_overwrites_last_wins (data : TransitGatewayAttachment)
    (hk : keyedTags (tagList data) = true)
    (h2 : 2 ≤ (tagList data).countP isNameTag) :
    getEc2TransitGatewayAttachmentTitle data =
      Outcome.ret ((tagList data).foldl overwriteTitle data.TransitGatewayAttachmentId) none ∧
    ∃ t : Tag, (tagList data).reverse.find? isNameTag = some (some t) ∧
      t.Key = some "Name" ∧
      getEc2TransitGatewayAttachmentTitle data = Outcome.ret t.Value none := by
  refine ⟨title_of_keyed data hk, ?_⟩
  have hpos : 0 < (tagList data).countP isNameTag := by omega
  obtain ⟨e, he, hn⟩ := List.countP_pos_iff.mp hpos
  cases hf : (tagList data).reverse.find? isNameTag with
  | none =>
    have hnone := List.find?_eq_none.mp hf e (List.mem_reverse.mpr he)
    exact absurd hn hnone
  | some e' =>
    obtain ⟨t, rfl, hname⟩ := (isNameTag_iff e').mp (List.find?_some hf)
    refine ⟨t, rfl, hname, ?_⟩
    rw [title_of_keyed data hk, foldl_overwriteTitle_find, hf]
    rfl

/-- Witness of C10 as amended: with Name=old, owner=net and a last "Name" tag
whose value pointer is nil, the title is that nil value. -/
theorem title_scan_overwrites_last_wins_witness :
    2 ≤ (tagList attachmentNamesApart).countP isNameTag ∧
    getEc2TransitGatewayAttachmentTitle attachmentNamesApart = Outcome.ret none none :=
  ⟨by decide, (title_scan_overwrites_last_wins attachmentNamesApart (by decide) (by decide)).1⟩

/-- Counterexample to C10 as stated: the tag list Name=first, Name=second, nil
contains two tags with key "Name", the last of them with value "second", and
the title transform dereferences the nil entry and returns no title. -/
theorem title_scan_nil_entry_does_not_return :
    2 ≤ (tagList attachmentTwoNamesNilEntry).countP isNameTag ∧
    (tagList attachmentTwoNamesNilEntry).reverse.find? isNameTag =
      some (some ⟨some "Name", some "second"⟩) ∧
    getEc2TransitGatewayAttachmentTitle attachmentTwoNamesNilEntry = Outcome.panic ∧
    getEc2TransitGatewayAttachmentTitle attachmentTwoNamesNilEntry ≠
      Outcome.ret (some "second") none := by
  decide

/-! ## Get -/

/-- C3. For every successful response of the describe call made by
`getEc2TransitGatewayVpcAttachment`: when the returned list is nil or empty the
hydrate returns nil with a nil error, and when it has one or more items the
hydrate returns the first item with a nil error, whatever the remaining items. -/
theorem get_returns_first_item_or_nothing (env : Env) (d : QueryData) (s : RunState)
    (svc : Ec2Client) (op : DescribeTransitGatewayAttachmentsOutput)
    (hsvc : env.Ec2Service d (d.KeyColumnQualString env.matrixKeyRegion) = .ok svc)
    (hop : svc.DescribeTransitGatewayAttachments
      ⟨some [some (d.KeyColumnQualString "transit_gateway_attachment_id")]⟩ = .ok op) :
    ((op.TransitGatewayAttachments = none ∨ op.TransitGatewayAttachments = some []) →
      (getEc2TransitGatewayVpcAttachment env d s).2 = Outcome.ret none none) ∧
    (∀ (first : Item) (rest : List Item),
      op.TransitGatewayAttachments = some (first :: rest) →
      (getEc2TransitGatewayVpcAttachment env d s).2 = Outcome.ret (some first) none) := by
  constructor
  · rintro (h | h) <;> simp [getEc2TransitGatewayVpcAttachment, hsvc, hop, h]
  · intro first rest h
    simp [getEc2TransitGatewayVpcAttachment, hsvc, hop, h]

/-- Witness of C3: a response with two items yields the first one. -/
theorem get_returns_first_item_or_nothing_witness :
    (getEc2TransitGatewayVpcAttachment
      (envWith (.ok (clientAnswering (.ok ⟨some [itemWithId "tgw-attach-0a1b",
        itemWithId "tgw-attach-0c2d"]⟩)))) queryOne freshState).2 =
      Outcome.ret (some (itemWithId "tgw-attach-0a1b")) none :=
  (get_returns_first_item_or_nothing
    (envWith (.ok (clientAnswering (.ok ⟨some [itemWithId "tgw-attach-0a1b",
      itemWithId "tgw-attach-0c2d"]⟩)))) queryOne freshState
    (clientAnswering (.ok ⟨some [itemWithId "tgw-attach-0a1b", itemWithId "tgw-attach-0c2d"]⟩))
    ⟨some [itemWithId "tgw-attach-0a1b", itemWithId "tgw-attach-0c2d"]⟩ rfl rfl).2
    (itemWithId "tgw-attach-0a1b") [itemWithId "tgw-attach-0c2d"] rfl

theorem get_hydrate_on_failure (env : Env) (d : QueryData) (s : RunState) (e : Err)
    (hfail : env.Ec2Service d (d.KeyColumnQualString env.matrixKeyRegion) = .error e ∨
      ∃ svc : Ec2Client,
        env.Ec2Service d (d.KeyColumnQualString env.matrixKeyRegion) = .ok svc ∧
        svc.DescribeTransitGatewayAttachments
          ⟨some [some (d.KeyColumnQualString "transit_gateway_attachment_id")]⟩ = .error e) :
    (getEc2TransitGatewayVpcAttachment env d s).2 = Outcome.ret none (some e) := by
  rcases hfail with h | ⟨svc, hsvc, hop⟩
  · simp [getEc2TransitGatewayVpcAttachment, h]
  · simp [getEc2TransitGatewayVpcAttachment, hsvc, hop]

theorem get_hydrate_error_origin (env : Env) (d : QueryData) (s : RunState)
    (item : Option Item) (e : Err)
    (h : (getEc2TransitGatewayVpcAttachment env d s).2 = Outcome.ret item (some e)) :
    item = none ∧
    (env.Ec2Service d (d.KeyColumnQualString env.matrixKeyRegion) = .error e ∨
      ∃ svc : Ec2Client,
        env.Ec2Service d (d.KeyColumnQualString env.matrixKeyRegion) = .ok svc ∧
        svc.DescribeTransitGatewayAttachments
          ⟨some [some (d.KeyColumnQualString "transit_gateway_attachment_id")]⟩ = .error e) := by
  unfold getEc2TransitGatewayVpcAttachment at h
  cases hsvc : env.Ec2Service d (d.KeyColumnQualString env.matrixKeyRegion) with
  | error err =>
    simp only [hsvc] at h
    injection h with h1 h2
    injection h2 with h2
    exact ⟨h1.symm, Or.inl (by rw [h2])⟩
  | ok svc =>
    simp only [hsvc] at h
    cases hop : svc.DescribeTransitGatewayAttachments
        ⟨some [some (d.KeyColumnQualString "transit_gateway_attachment_id")]⟩ with
    | error err =>
      simp only [hop] at h
      injection h with h1 h2
      injection h2 with h2
      exact ⟨h1.symm, Or.inr ⟨svc, rfl, h2 ▸ hop⟩⟩
    | ok op =>
      simp only [hop] at h
      rcases hl : op.TransitGatewayAttachments with _ | _ | ⟨first, rest⟩ <;>
        simp [hl] at h

/-- C4. For every provider error whose code is one of
InvalidTransitGatewayAttachmentID.NotFound, .Unavailable or .Malformed, returned
by the client factory or by the describe call, the hydrate returns that error and
Get, the hydrate run under the Get configuration of the table, returns an empty
result with a nil error. -/
theorem get_not_found_class_is_empty_result (env : Env) (d : QueryData) (s : RunState)
    (e : Err)
    (hcode : e.code = some "InvalidTransitGatewayAttachmentID.NotFound" ∨
      e.code = some "InvalidTransitGatewayAttachmentID.Unavailable" ∨
      e.code = some "InvalidTransitGatewayAttachmentID.Malformed")
    (hfail : env.Ec2Service d (d.KeyColumnQualString env.matrixKeyRegion) = .error e ∨
      ∃ svc : Ec2Client,
        env.Ec2Service d (d.KeyColumnQualString env.matrixKeyRegion) = .ok svc ∧
        svc.DescribeTransitGatewayAttachments
          ⟨some [some (d.KeyColumnQualString "transit_gateway_attachment_id")]⟩ = .error e) :
    (getEc2TransitGatewayVpcAttachment env d s).2 = Outcome.ret none (some e) ∧
    (runGet tableAwsEc2TransitGatewayVpcAttachment.Get env d s).2 = Outcome.ret none none := by
  have hh := get_hydrate_on_failure env d s e hfail
  refine ⟨hh, ?_⟩
  have hig : tableAwsEc2TransitGatewayVpcAttachment.Get.ShouldIgnoreError e = true := by
    rcases hcode with h | h | h <;>
      simp [tableAwsEc2TransitGatewayVpcAttachment, isNotFoundError, h]
  have hH : tableAwsEc2TransitGatewayVpcAttachment.Get.Hydrate =
      getEc2TransitGatewayVpcAttachment := rfl
  unfold runGet
  rw [hH]
  cases hr : getEc2TransitGatewayVpcAttachment env d s with
  | mk s' o =>
    rw [hr] at hh
    simp only at hh
    subst hh
    simp [hig]

/-- Witness of C4: a describe call failing with
InvalidTransitGatewayAttachmentID.NotFound gives an empty Get result. -/
theorem get_not_found_class_is_empty_result_witness :
    (runGet tableAwsEc2TransitGatewayVpcAttachment.Get
      (envWith (.ok (clientAnswering
        (.error (providerError "InvalidTransitGatewayAttachmentID.NotFound")))))
      queryOne freshState).2 = Outcome.ret none none :=
  (get_not_found_class_is_empty_result
    (envWith (.ok (clientAnswering
      (.error (providerError "InvalidTransitGatewayAttachmentID.NotFound")))))
    queryOne freshState (providerError "InvalidTransitGatewayAttachmentID.NotFound")
    (Or.inl rfl)
    (Or.inr ⟨clientAnswering
      (.error (providerError "InvalidTransitGatewayAttachmentID.NotFound")), rfl, rfl⟩)).2

/-- C5. For every error outside the NotFound class (an error without a provider
code, or with a code that is none of the three
InvalidTransitGatewayAttachmentID codes), returned by the client factory or by
the describe call, Get returns that same error and no item; and whenever Get
returns an error, it is the error one of these two calls returned. -/
theorem get_other_errors_propagate (env : Env) (d : QueryData) (s : RunState) :
    (∀ e : Err,
      e.code ≠ some "InvalidTransitGatewayAttachmentID.NotFound" →
      e.code ≠ some "InvalidTransitGatewayAttachmentID.Unavailable" →
      e.code ≠ some "InvalidTransitGatewayAttachmentID.Malformed" →
      (env.Ec2Service d (d.KeyColumnQualString env.matrixKeyRegion) = .error e ∨
        ∃ svc : Ec2Client,
          env.Ec2Service d (d.KeyColumnQualString env.matrixKeyRegion) = .ok svc ∧
          svc.DescribeTransitGatewayAttachments
            ⟨some [some (d.KeyColumnQualString "transit_gateway_attachment_id")]⟩ = .error e) →
      (runGet tableAwsEc2TransitGatewayVpcAttachment.Get env d s).2 =
        Outcome.ret none (some e)) ∧
    (∀ (item : Option Item) (e : Err),
      (runGet tableAwsEc2TransitGatewayVpcAttachment.Get env d s).2 =
        Outcome.ret item (some e) →
      item = none ∧
      (env.Ec2Service d (d.KeyColumnQualString env.matrixKeyRegion) = .error e ∨
        ∃ svc : Ec2Client,
          env.Ec2Service d (d.KeyColumnQualString env.matrixKeyRegion) = .ok svc ∧
          svc.DescribeTransitGatewayAttachments
            ⟨some [some (d.KeyColumnQualString "transit_gateway_attachment_id")]⟩ =
              .error e)) := by
  have hH : tableAwsEc2TransitGatewayVpcAttachment.Get.Hydrate =
      getEc2TransitGatewayVpcAttachment := rfl
  constructor
  · intro e h1 h2 h3 hfail
    have hh := get_hydrate_on_failure env d s e hfail
    have hig : tableAwsEc2TransitGatewayVpcAttachment.Get.ShouldIgnoreError e = false := by
      cases hc : e.code with
      | none => simp [tableAwsEc2TransitGatewayVpcAttachment, isNotFoundError, hc]
      | some c =>
        rw [hc] at h1 h2 h3
        have g1 : c ≠ "InvalidTransitGatewayAttachmentID.NotFound" := fun h => h1 (by rw [h])
        have g2 : c ≠ "InvalidTransitGatewayAttachmentID.Unavailable" := fun h => h2 (by rw [h])
        have g3 : c ≠ "InvalidTransitGatewayAttachmentID.Malformed" := fun h => h3 (by rw [h])
        simp [tableAwsEc2TransitGatewayVpcAttachment, isNotFoundError, hc, g1, g2, g3]
    unfold runGet
    rw [hH]
    cases hr : getEc2TransitGatewayVpcAttachment env d s with
    | mk s' o =>
      rw [hr] at hh
      simp only at hh
      subst hh
      simp [hig]
  · intro item e h
    apply get_hydrate_error_origin env d s item e
    unfold runGet at h
    rw [hH] at h
    cases hr : getEc2TransitGatewayVpcAttachment env d s with
    | mk s' o =>
      rw [hr] at h
      cases o with
      | panic => simp at h
      | ret v err =>
        cases err with
        | none => simp at h
        | some e' =>
          by_cases hig : tableAwsEc2TransitGatewayVpcAttachment.Get.ShouldIgnoreError e' = true
          · simp [hig] at h
          · simp [hig] at h
            simp [h]

/-- Witness of C5: a describe call failing with a throttling error makes Get
return that error. -/
theorem get_other_errors_propagate_witness :
    (runGet tableAwsEc2TransitGatewayVpcAttachment.Get
      (envWith (.ok (clientAnswering (.error (providerError "RequestLimitExceeded")))))
      queryOne freshState).2 = Outcome.ret none (some (providerError "RequestLimitExceeded")) :=
  (get_other_errors_propagate
    (envWith (.ok (clientAnswering (.error (providerError "RequestLimitExceeded")))))
    queryOne freshState).1 (providerError "RequestLimitExceeded")
    (by decide) (by decide) (by decide)
    (Or.inr ⟨clientAnswering (.error (providerError "RequestLimitExceeded")), rfl, rfl⟩)

/-! ## List -/

theorem foldl_StreamListItem (items : List Item) :
    ∀ s : RunState, items.foldl StreamListItem s =
      { streamed := s.streamed ++ items, calls := s.calls } := by
  induction items with
  | nil => intro s; simp
  | cons x rest ih =>
    intro s
    simp [List.foldl, ih, StreamListItem]

theorem listPageCallback_eq (s : RunState) (page : DescribeTransitGatewayAttachmentsOutput)
    (isLast : Bool) :
    listPageCallback s page isLast =
      ({ streamed := s.streamed ++ pageItems page, calls := s.calls }, !isLast) := by
  simp [listPageCallback, pageItems, foldl_StreamListItem]

theorem pagesLoop_cons_more (page : DescribeTransitGatewayAttachmentsOutput)
    (rest : List (DescribeTransitGatewayAttachmentsOutput × Bool)) (err : Option Err)
    (s : RunState) :
    pagesLoop listPageCallback ((page, false) :: rest) err s =
      pagesLoop listPageCallback rest err
        { streamed := s.streamed ++ pageItems page, calls := s.calls } := by
  simp [pagesLoop, listPageCallback_eq]

theorem pagesLoop_cons_last (page : DescribeTransitGatewayAttachmentsOutput)
    (rest : List (DescribeTransitGatewayAttachmentsOutput × Bool)) (err : Option Err)
    (s : RunState) :
    pagesLoop listPageCallback ((page, true) :: rest) err s =
      ({ streamed := s.streamed ++ pageItems page, calls := s.calls }, none) := by
  simp [pagesLoop, listPageCallback_eq]

theorem allPageItems_cons (p : DescribeTransitGatewayAttachmentsOutput × Bool)
    (rest : List (DescribeTransitGatewayAttachmentsOutput × Bool)) :
    allPageItems (p :: rest) = pageItems p.1 ++ allPageItems rest := by
  simp [allPageItems]

theorem pagesLoop_to_last_page (pages : List (DescribeTransitGatewayAttachmentsOutput × Bool)) :
    ∀ (err : Option Err) (s : RunState), lastSignalOnlyAtEnd pages = true →
      (pagesLoop listPageCallback pages err s).1 =
        { streamed := s.streamed ++ allPageItems pages, calls := s.calls } ∧
      (pages ≠ [] → (pagesLoop listPageCallback pages err s).2 = none) := by
  induction pages with
  | nil => intro err s _; simp [pagesLoop, allPageItems]
  | cons p rest ih =>
    intro err s h
    obtain ⟨page, isLast⟩ := p
    cases rest with
    | nil =>
      have hl : isLast = true := by simpa [lastSignalOnlyAtEnd] using h
      subst hl
      rw [pagesLoop_cons_last]
      simp [allPageItems]
    | cons q rest' =>
      have hh : isLast = false ∧ lastSignalOnlyAtEnd (q :: rest') = true := by
        simpa [lastSignalOnlyAtEnd] using h
      obtain ⟨hl, hrest⟩ := hh
      subst hl
      have := ih err { streamed := s.streamed ++ pageItems page, calls := s.calls } hrest
      rw [pagesLoop_cons_more, allPageItems_cons]
      refine ⟨?_, fun _ => this.2 (by simp)⟩
      rw [this.1]
      simp [List.append_assoc]

theorem pagesLoop_none_last (pages : List (DescribeTransitGatewayAttachmentsOutput × Bool)) :
    ∀ (err : Option Err) (s : RunState), (∀ p ∈ pages, p.2 = false) →
      pagesLoop listPageCallback pages err s =
        ({ streamed := s.streamed ++ allPageItems pages, calls := s.calls }, err) := by
  induction pages with
  | nil => intro err s _; simp [pagesLoop, allPageItems]
  | cons p rest ih =>
    intro err s h
    obtain ⟨page, isLast⟩ := p
    have hl : isLast = false := h (page, isLast) (List.mem_cons_self _ _)
    subst hl
    have hrest : ∀ p ∈ rest, p.2 = false := fun p hp => h p (List.mem_cons_of_mem _ hp)
    rw [pagesLoop_cons_more, ih err _ hrest, allPageItems_cons]
    simp [List.append_assoc]

theorem pagesLoop_streams_initial_run
    (pages : List (DescribeTransitGatewayAttachmentsOutput × Bool)) :
    ∀ (err : Option Err) (s : RunState),
      ∃ k : Nat, (pagesLoop listPageCallback pages err s).1.streamed =
        s.streamed ++ allPageItems (pages.take k) := by
  induction pages with
  | nil => intro err s; exact ⟨0, by simp [pagesLoop, allPageItems]⟩
  | cons p rest ih =>
    intro err s
    obtain ⟨page, isLast⟩ := p
    cases isLast with
    | true =>
      refine ⟨1, ?_⟩
      rw [pagesLoop_cons_last]
      simp [allPageItems]
    | false =>
      obtain ⟨k, hk⟩ := ih err { streamed := s.streamed ++ pageItems page, calls := s.calls }
      refine ⟨k + 1, ?_⟩
      rw [pagesLoop_cons_more, hk, List.take_succ_cons, allPageItems_cons]
      simp [List.append_assoc]

/-- C6. For every finite sequence of pages delivered by the provider in which
only the final page carries the last-page signal, the list function makes one
unfiltered paginated describe call and hands to the sink exactly the
concatenation of the attachment lists of the pages, in page order and
within-page order, after what the sink already held; it returns a nil error when
at least one page was delivered; and its page callback asks for another page if
and only if the page was not the last. -/
theorem list_streams_every_page_in_order (env : Env) (d : QueryData) (s : RunState)
    (svc : Ec2Client)
    (hsvc : env.Ec2Service d (d.KeyColumnQualString env.matrixKeyRegion) = .ok svc)
    (hsig : lastSignalOnlyAtEnd (svc.pages ⟨none⟩) = true) :
    (listEc2TransitGatewayVpcAttachment env d s).1.streamed =
      s.streamed ++ allPageItems (svc.pages ⟨none⟩) ∧
    (listEc2TransitGatewayVpcAttachment env d s).1.calls =
      s.calls ++ [ApiCall.describePages ⟨none⟩] ∧
    (svc.pages ⟨none⟩ ≠ [] →
      (listEc2TransitGatewayVpcAttachment env d s).2 = Outcome.ret none none) ∧
    (∀ (s' : RunState) (page : DescribeTransitGatewayAttachmentsOutput) (isLast : Bool),
      ((listPageCallback s' page isLast).2 = true ↔ isLast = false)) := by
  have h := pagesLoop_to_last_page (svc.pages ⟨none⟩) (svc.pagesErr ⟨none⟩)
    { s with calls := s.calls ++ [ApiCall.describePages ⟨none⟩] } hsig
  refine ⟨?_, ?_, ?_, ?_⟩
  · simp [listEc2TransitGatewayVpcAttachment, hsvc,
      Ec2Client.DescribeTransitGatewayAttachmentsPages, h.1]
  · simp [listEc2TransitGatewayVpcAttachment, hsvc,
      Ec2Client.DescribeTransitGatewayAttachmentsPages, h.1]
  · intro hne
    simp [listEc2TransitGatewayVpcAttachment, hsvc,
      Ec2Client.DescribeTransitGatewayAttachmentsPages, h.2 hne]
  · intro s' page isLast
    simp [listPageCallback]

/-- Witness of C6: three pages of 2, 2 and 1 items yield all 5 items, in
order. -/
theorem list_streams_every_page_in_order_witness :
    (listEc2TransitGatewayVpcAttachment (envWith (.ok (clientPaging threePages none)))
      queryOne freshState).1.streamed =
      [itemWithId "a1", itemWithId "a2", itemWithId "b1", itemWithId "b2", itemWithId "c1"] :=
  (list_streams_every_page_in_order (envWith (.ok (clientPaging threePages none)))
    queryOne freshState (clientPaging threePages none) rfl (by decide)).1

/-- C7. When creating the client fails, the list function returns that error
having streamed no item and made no describe call. When the paginated describe
call fails with an error after delivering pages none of which was the last, the
list function returns that same error and the sink has received the items of
the delivered pages and nothing more. In every run with a client, the error
the list function returns is the one the paginated call returned, and what the
sink received is the items of an initial run of the delivered pages. -/
theorem list_errors_propagate (env : Env) (d : QueryData) (s : RunState) :
    (∀ e : Err,
      env.Ec2Service d (d.KeyColumnQualString env.matrixKeyRegion) = .error e →
      listEc2TransitGatewayVpcAttachment env d s = (s, Outcome.ret none (some e))) ∧
    (∀ (svc : Ec2Client) (e : Err),
      env.Ec2Service d (d.KeyColumnQualString env.matrixKeyRegion) = .ok svc →
      (∀ p ∈ svc.pages ⟨none⟩, p.2 = false) →
      svc.pagesErr ⟨none⟩ = some e →
      (listEc2TransitGatewayVpcAttachment env d s).2 = Outcome.ret none (some e) ∧
      (listEc2TransitGatewayVpcAttachment env d s).1.streamed =
        s.streamed ++ allPageItems (svc.pages ⟨none⟩)) ∧
    (∀ svc : Ec2Client,
      env.Ec2Service d (d.KeyColumnQualString env.matrixKeyRegion) = .ok svc →
      (listEc2TransitGatewayVpcAttachment env d s).2 = Outcome.ret none
        (svc.DescribeTransitGatewayAttachmentsPages ⟨none⟩ listPageCallback s).2 ∧
      ∃ k : Nat, (listEc2TransitGatewayVpcAttachment env d s).1.streamed =
        s.streamed ++ allPageItems ((svc.pages ⟨none⟩).take k)) := by
  refine ⟨?_, ?_, ?_⟩
  · intro e h
    simp [listEc2TransitGatewayVpcAttachment, h]
  · intro svc e hsvc hflags herr
    have h := pagesLoop_none_last (svc.pages ⟨none⟩) (svc.pagesErr ⟨none⟩)
      { s with calls := s.calls ++ [ApiCall.describePages ⟨none⟩] } hflags
    rw [herr] at h
    simp only [listEc2TransitGatewayVpcAttachment, hsvc,
      Ec2Client.DescribeTransitGatewayAttachmentsPages, herr, h]
    simp
  · intro svc hsvc
    obtain ⟨k, hk⟩ := pagesLoop_streams_initial_run (svc.pages ⟨none⟩) (svc.pagesErr ⟨none⟩)
      { s with calls := s.calls ++ [ApiCall.describePages ⟨none⟩] }
    refine ⟨?_, k, ?_⟩
    · simp [listEc2TransitGatewayVpcAttachment, hsvc]
    · simpa [listEc2TransitGatewayVpcAttachment, hsvc,
        Ec2Client.DescribeTransitGatewayAttachmentsPages] using hk

/-- Witness of C7: after two delivered pages of 2 and 1 items the call fails
with a throttling error; the list function returns it and the sink holds the 3
items. -/
theorem list_errors_propagate_witness :
    (listEc2TransitGatewayVpcAttachment
      (envWith (.ok (clientPaging twoPagesThenMore (some (providerError "RequestLimitExceeded")))))
      queryOne freshState).2 = Outcome.ret none (some (providerError "RequestLimitExceeded")) ∧
    (listEc2TransitGatewayVpcAttachment
      (envWith (.ok (clientPaging twoPagesThenMore (some (providerError "RequestLimitExceeded")))))
      queryOne freshState).1.streamed = [itemWithId "a1", itemWithId "a2", itemWithId "b1"] :=
  (list_errors_propagate
    (envWith (.ok (clientPaging twoPagesThenMore (some (providerError "RequestLimitExceeded")))))
    queryOne freshState).2.1
    (clientPaging twoPagesThenMore (some (providerError "RequestLimitExceeded")))
    (providerError "RequestLimitExceeded") rfl (by decide) rfl

/-! ## Akas -/

/-- C8. For every partition, account id, region and attachment with a non-nil
attachment id, when the common-columns lookup succeeds the akas hydrate returns
one string, "arn:" ++ partition ++ ":ec2:" ++ region ++ ":" ++ accountId ++
":transit-gateway-attachment/" ++ attachmentId, with a nil error; and any other
call with the same four values returns the same output. -/
theorem akas_single_arn (env : Env) (d : QueryData) (h : HydrateData)
    (attachment : TransitGatewayAttachment) (id : String) (c : awsCommonColumnData)
    (hitem : h.Item = some attachment)
    (hid : attachment.TransitGatewayAttachmentId = some id)
    (hc : env.getCommonColumns d h = .ok c) :
    getAwsEc2TransitGatewayVpcAttachmentAkas env d h =
      Outcome.ret (some ["arn:" ++ c.Partition ++ ":ec2:"
        ++ d.KeyColumnQualString env.matrixKeyRegion ++ ":" ++ c.AccountId
        ++ ":transit-gateway-attachment/" ++ id]) none ∧
    (∀ (env' : Env) (d' : QueryData) (h' : HydrateData)
      (attachment' : TransitGatewayAttachment) (c' : awsCommonColumnData),
      h'.Item = some attachment' →
      attachment'.TransitGatewayAttachmentId = some id →
      env'.getCommonColumns d' h' = .ok c' →
      c'.Partition = c.Partition →
      c'.AccountId = c.AccountId →
      d'.KeyColumnQualString env'.matrixKeyRegion = d.KeyColumnQualString env.matrixKeyRegion →
      getAwsEc2TransitGatewayVpcAttachmentAkas env' d' h' =
        getAwsEc2TransitGatewayVpcAttachmentAkas env d h) := by
  constructor
  · simp [getAwsEc2TransitGatewayVpcAttachmentAkas, hitem, hid, hc]
  · intro env' d' h' attachment' c' hitem' hid' hc' hp ha hr
    simp [getAwsEc2TransitGatewayVpcAttachmentAkas, hitem, hid, hc, hitem', hid', hc', hp, ha, hr]

/-- Witness of C8: partition aws, region us-east-1, account 123456789012 and
attachment tgw-attach-0a1b give the one ARN of that attachment. -/
theorem akas_single_arn_witness :
    getAwsEc2TransitGatewayVpcAttachmentAkas (envWith (.error (providerError "unused")))
      queryOne hydrateOne =
      Outcome.ret (some
        ["arn:aws:ec2:us-east-1:123456789012:transit-gateway-attachment/tgw-attach-0a1b"])
        none :=
  (akas_single_arn (envWith (.error (providerError "unused"))) queryOne hydrateOne
    { TransitGatewayAttachmentId := some "tgw-attach-0a1b", Tags := none } "tgw-attach-0a1b"
    { Partition := "aws", Region := "us-east-1", AccountId := "123456789012" }
    rfl rfl rfl).1

/-! ## Tags -/

theorem ec2TagsToMapLoop_pairs (kvs : List (String × String)) :
    ∀ m : TurbotTags, ec2TagsToMapLoop (kvs.map rawTag) m =
      Outcome.ret (kvs.foldl (fun acc kv => acc.set kv.1 kv.2) m) none := by
  induction kvs with
  | nil => intro m; rfl
  | cons kv rest ih =>
    intro m
    simp [rawTag, ec2TagsToMapLoop, ih]

theorem foldl_set_other (kvs : List (String × String)) :
    ∀ (m : TurbotTags) (k : String), k ∉ kvs.map Prod.fst →
      (kvs.foldl (fun acc kv => acc.set kv.1 kv.2) m) k = m k := by
  induction kvs with
  | nil => intro m k _; rfl
  | cons kv rest ih =>
    intro m k hk
    have h1 : k ≠ kv.1 := fun h => hk (by simp [h])
    have h2 : k ∉ rest.map Prod.fst := fun h => hk (by simp at h ⊢; exact Or.inr h)
    rw [List.foldl_cons, ih _ k h2]
    simp [TurbotTags.set, h1]

theorem foldl_set_mem (kvs : List (String × String)) :
    ∀ m : TurbotTags, (kvs.map Prod.fst).Nodup →
      ∀ kv ∈ kvs, (kvs.foldl (fun acc kv => acc.set kv.1 kv.2) m) kv.1 = some kv.2 := by
  induction kvs with
  | nil => intro m _ kv hkv; cases hkv
  | cons x rest ih =>
    intro m hnd kv hkv
    have hnd' : x.1 ∉ rest.map Prod.fst ∧ (rest.map Prod.fst).Nodup := by
      simpa [List.nodup_cons] using hnd
    rw [List.foldl_cons]
    rcases List.mem_cons.mp hkv with h | h
    · subst h
      rw [foldl_set_other rest _ _ hnd'.1]
      simp [TurbotTags.set]
    · exact ih _ hnd'.2 kv h

theorem ec2TagsToMap_of_pairs (data : TransitGatewayAttachment)
    (kvs : List (String × String))
    (htags : tagList data = kvs.map rawTag)
    (hdistinct : (kvs.map Prod.fst).Nodup) :
    ∃ m : TurbotTags,
      transitGatewayAttachmentRawTagsToTurbotTags data = Outcome.ret m none ∧
      (∀ kv ∈ kvs, m kv.1 = some kv.2) ∧
      (∀ k : String, k ∉ kvs.map Prod.fst → m k = none) := by
  refine ⟨kvs.foldl (fun acc kv => acc.set kv.1 kv.2) (fun _ => none), ?_, ?_, ?_⟩
  · have h := ec2TagsToMapLoop_pairs kvs (fun _ => none)
    rw [← htags] at h
    exact h
  · exact foldl_set_mem kvs _ hdistinct
  · intro k hk
    exact foldl_set_other kvs _ k hk

theorem pairedTags_eq_map (tags : List (Option Tag)) :
    pairedTags tags = true → ∃ kvs : List (String × String), tags = kvs.map rawTag := by
  induction tags with
  | nil => intro _; exact ⟨[], rfl⟩
  | cons e rest ih =>
    intro h
    have hh : ((tagKey e).isSome = true ∧ (tagValue e).isSome = true) ∧
        pairedTags rest = true := by
      simpa [pairedTags] using h
    obtain ⟨⟨hk, hv⟩, hrest⟩ := hh
    obtain ⟨kvs, rfl⟩ := ih hrest
    cases e with
    | none => simp [tagKey] at hk
    | some t =>
      obtain ⟨key, value⟩ := t
      cases key with
      | none => simp [tagKey] at hk
      | some k =>
        cases value with
        | none => simp [tagValue] at hv
        | some v => exact ⟨(k, v) :: kvs, rfl⟩

theorem map_tagKey_rawTag (kvs : List (String × String)) :
    (kvs.map rawTag).map tagKey = (kvs.map Prod.fst).map some := by
  induction kvs with
  | nil => rfl
  | cons kv rest ih => simp [rawTag, tagKey]

/-- C9, as amended. For every attachment whose tag-list entries are all non-nil
tags with a non-nil key and a non-nil value and whose keys are pairwise distinct,
the tags transform returns, with a nil error, a map in which looking up the key
of each tag of the input list yields the value of that tag, and in which no key
outside the input list is bound. -/
theorem tags_map_contains_every_tag (data : TransitGatewayAttachment)
    (hpaired : pairedTags (tagList data) = true)
    (hdistinct : ((tagList data).map tagKey).Nodup) :
    ∃ m : TurbotTags,
      transitGatewayAttachmentRawTagsToTurbotTags data = Outcome.ret m none ∧
      (∀ (t : Tag) (k : String), some t ∈ tagList data → t.Key = some k → m k = t.Value) ∧
      (∀ k : String, some k ∉ (tagList data).map tagKey → m k = none) := by
  obtain ⟨kvs, hkvs⟩ := pairedTags_eq_map (tagList data) hpaired
  have hkeys : (tagList data).map tagKey = (kvs.map Prod.fst).map some := by
    rw [hkvs, map_tagKey_rawTag]
  have hnd : (kvs.map Prod.fst).Nodup := by
    rw [hkeys] at hdistinct
    exact List.Nodup.of_map _ hdistinct
  obtain ⟨m, hm, hin, hout⟩ := ec2TagsToMap_of_pairs data kvs hkvs hnd
  refine ⟨m, hm, ?_, ?_⟩
  · intro t k ht hk
    rw [hkvs] at ht
    obtain ⟨kv, hkv, hraw⟩ := List.mem_map.mp ht
    have ht' : t = ⟨some kv.1, some kv.2⟩ := by
      simpa [rawTag] using hraw.symm
    subst ht'
    have hk' : kv.1 = k := by simpa using hk
    subst hk'
    exact hin kv hkv
  · intro k hk
    apply hout
    intro hmem
    apply hk
    rw [hkeys]
    exact List.mem_map.mpr ⟨k, hmem, rfl⟩

/-- Witness of C9 as amended: the tag list env=prod, Name=edge-vpc. -/
theorem tags_map_contains_every_tag_witness :
    pairedTags (tagList attachmentEnvName) = true ∧
    ((tagList attachmentEnvName).map tagKey).Nodup ∧
    ∃ m : TurbotTags,
      transitGatewayAttachmentRawTagsToTurbotTags attachmentEnvName = Outcome.ret m none ∧
      (∀ (t : Tag) (k : String), some t ∈ tagList attachmentEnvName → t.Key = some k →
        m k = t.Value) ∧
      (∀ k : String, some k ∉ (tagList attachmentEnvName).map tagKey → m k = none) :=
  ⟨by decide, by decide, tags_map_contains_every_tag attachmentEnvName (by decide) (by decide)⟩

/-- Counterexample to C9 as stated: the tag list env=prod, team=nil has the
pairwise distinct keys env and team, and the tags transform returns no map on
it: entering the tag team dereferences its nil value. -/
theorem tags_map_nil_value_does_not_return :
    ((tagList attachmentNilValue).map tagKey).Nodup ∧
    transitGatewayAttachmentRawTagsToTurbotTags attachmentNilValue = Outcome.panic ∧
    ¬ ∃ m err, transitGatewayAttachmentRawTagsToTurbotTags attachmentNilValue =
        Outcome.ret m err := by
  refine ⟨by decide, rfl, ?_⟩
  rintro ⟨m, err, h⟩
  have hp : transitGatewayAttachmentRawTagsToTurbotTags attachmentNilValue =
      Outcome.panic := rfl
  rw [hp] at h
  cases h

end Aws
